import Mathlib

/-!
Shallow embedding of the session-resilience layer of the ad-render testing
scripts (edge_ad_render_tester.py, monetag_ad_tester.py,
monetag_nav_click_tester.py, monetag_play_button_tester.py).

The browser session is the external world; every embedded function is
parametrised by an environment that records the responses of the underlying
WebDriver calls (which elements become clickable, which window operations
raise a session-communication error, which windows are open).  The Lean
definitions mirror the Python control flow statement by statement; real-time
waits are abstracted into the per-call outcomes (a `timedOut` outcome stands
for the bounded wait elapsing without success).
-/

/-- Errors raised by the underlying WebDriver session.  `comm` stands for a
generic session-communication failure (Python `WebDriverException`),
`noSuchWindow` for switching to a handle that is no longer open. -/
inductive WDErr
  | comm
  | noSuchWindow
deriving DecidableEq

/-- Snapshot of the browser window state: `handles` is the enumeration
returned by `driver.window_handles`, `current` the focused handle. -/
structure WinSession where
  handles : List String
  current : String
deriving DecidableEq

/-- Fault model for per-handle window operations: which handles make
`switch_to.window` / `close` raise a communication error. -/
structure WinEnv where
  switchFault : String → Bool
  closeFault : String → Bool

/-- `driver.switch_to.window(h)`: communication fault, or the handle is no
longer enumerated, or success (focus moves to `h`). -/
def switchTo (env : WinEnv) (s : WinSession) (h : String) : Except WDErr WinSession :=
  if env.switchFault h then .error .comm
  else if h ∈ s.handles then .ok { s with current := h }
  else .error .noSuchWindow

/-- `driver.close()`: closes the focused window (removes it from the
enumeration); may raise a communication fault. -/
def closeCurrent (env : WinEnv) (s : WinSession) : Except WDErr WinSession :=
  if env.closeFault s.current then .error .comm
  else .ok { s with handles := s.handles.filter (fun h => !(h == s.current)) }

/-- A handle whose switch or close raises. -/
def wdFaulty (env : WinEnv) (h : String) : Bool :=
  env.switchFault h || env.closeFault h

/-! ## edge_ad_render_tester.close_unexpected_windows

```
current_handles = driver.window_handles
for handle in current_handles:
    if handle == main_handle: continue
    driver.switch_to.window(handle)
    driver.close()
if main_handle not in driver.window_handles and driver.window_handles:
    main_handle = driver.window_handles[0]
    driver.switch_to.window(main_handle)    # warning diagnostic
else:
    driver.switch_to.window(main_handle)
return main_handle
```
No per-handle exception handling: any fault propagates. -/

/-- The `for handle in current_handles` loop of `close_unexpected_windows`. -/
def closeLoop (env : WinEnv) (main : String) : List String → WinSession → Except WDErr WinSession
  | [], s => .ok s
  | h :: rest, s =>
      if h = main then closeLoop env main rest s
      else
        match switchTo env s h with
        | .error e => .error e
        | .ok s1 =>
            match closeCurrent env s1 with
            | .error e => .error e
            | .ok s2 => closeLoop env main rest s2

/-- Result of a reconciliation call: final session, returned (possibly
promoted) primary handle, and whether the promotion diagnostic was logged. -/
structure ReconcileOut where
  session : WinSession
  mainHandle : String
  promoted : Bool
deriving DecidableEq

/-- Embedding of `close_unexpected_windows` (edge_ad_render_tester.py). -/
def close_unexpected_windows (env : WinEnv) (s : WinSession) (main : String) :
    Except WDErr ReconcileOut :=
  match closeLoop env main s.handles s with
  | .error e => .error e
  | .ok s1 =>
      if main ∉ s1.handles ∧ s1.handles ≠ [] then
        match switchTo env s1 (s1.handles.headD main) with
        | .error e => .error e
        | .ok s2 => .ok ⟨s2, s1.handles.headD main, true⟩
      else
        match switchTo env s1 main with
        | .error e => .error e
        | .ok s2 => .ok ⟨s2, main, false⟩

/-! ## monetag_ad_tester.close_additional_windows

```
try: primary_handle = driver.current_window_handle
except WebDriverException: return
for handle in list(driver.window_handles):
    if handle == primary_handle: continue
    with contextlib.suppress(WebDriverException):
        driver.switch_to.window(handle)
        driver.close()
with contextlib.suppress(WebDriverException):
    driver.switch_to.window(primary_handle)
```
Every per-handle fault is suppressed; the function returns no value. -/

/-- One suppressed `switch; close` attempt of `close_additional_windows`:
on a fault the session is left exactly as the partial progress left it. -/
def cawStep (env : WinEnv) (s : WinSession) (h : String) : WinSession :=
  match switchTo env s h with
  | .error _ => s
  | .ok s1 =>
      match closeCurrent env s1 with
      | .error _ => s1
      | .ok s2 => s2

/-- The handle loop of `close_additional_windows`. -/
def cawLoop (env : WinEnv) (primary : String) : List String → WinSession → WinSession
  | [], s => s
  | h :: rest, s =>
      if h = primary then cawLoop env primary rest s
      else cawLoop env primary rest (cawStep env s h)

/-- Environment for `close_additional_windows`; `currentHandleFault` models
`driver.current_window_handle` raising (the function then returns early). -/
structure CawEnv where
  base : WinEnv
  currentHandleFault : Bool

/-- Embedding of `close_additional_windows` (monetag_ad_tester.py).  Total:
no session fault ever escapes this function. -/
def close_additional_windows (env : CawEnv) (s : WinSession) : WinSession :=
  if env.currentHandleFault then s
  else
    let primary := s.current
    let s1 := cawLoop env.base primary s.handles s
    match switchTo env.base s1 primary with
    | .ok s2 => s2
    | .error _ => s1

/-! ## Overlay dismissers

`monetag_ad_tester.dismiss_initial_overlay` and
`edge_ad_render_tester.close_ad_popup_if_present` both iterate an ordered
locator list, waiting for each locator to become clickable.  A run is
recorded as a trace of events. -/

/-- Outcome of one `WebDriverWait(...).until(element_to_be_clickable)`
attempt followed by `click()`: the element became clickable and the click
succeeded, the bounded wait elapsed (`TimeoutException`), or the click raised
a `WebDriverException`. -/
inductive LocOutcome
  | clickable
  | timedOut
  | clickFailed
deriving DecidableEq

/-- Observable events of an overlay-dismissal run.  Locator events carry the
position of the locator in the configured list. -/
inductive Ev
  | locClosed (i : Nat)
  | locTimeout (i : Nat)
  | locClickErr (i : Nat)
  | bodyClicked
  | bodyClickFailed
  | offsetClicked
  | offsetClickFailed
  | closedNewWindow (h : String)
  | closeNewFailed (h : String)
  | switchedBack
  | reloaded (u : String)
  | reloadFailed
  | retryClosed (i : Nat)
  | retryFailed (i : Nat)
deriving DecidableEq

/-- First locator pass shared by both dismissers: try each locator in order;
on the first successful click return immediately, on a timeout or a failed
click log and continue with the next locator. -/
def firstPassL : List LocOutcome → Nat → List Ev × Bool
  | [], _ => ([], false)
  | .clickable :: _, i => ([.locClosed i], true)
  | .timedOut :: rest, i =>
      let r := firstPassL rest (i + 1)
      (.locTimeout i :: r.1, r.2)
  | .clickFailed :: rest, i =>
      let r := firstPassL rest (i + 1)
      (.locClickErr i :: r.1, r.2)

/-- Retry pass at the end of `dismiss_initial_overlay`: plain
`find_element` + `click` per locator, return on the first success, any
`WebDriverException` is logged and the next locator is tried. -/
def retryPassL : List Bool → Nat → List Ev
  | [], _ => []
  | true :: _, i => [.retryClosed i]
  | false :: rest, i => .retryFailed i :: retryPassL rest (i + 1)

/-- Driver responses for one `dismiss_initial_overlay` call.  The `...Ok`
flags record whether the corresponding raw WebDriver call succeeds;
`locOutcomes` and `retryOutcomes` have one entry per element of
`CLOSE_BUTTON_LOCATORS` (five locators in the source). -/
structure DismissEnv where
  currentHandleOk : Bool
  locOutcomes : List LocOutcome
  currentUrlOk : Bool
  currentUrl : String
  beforeReadOk : Bool
  beforeHandles : List String
  bodyClickOk : Bool
  offsetClickOk : Bool
  afterReadOk : Bool
  afterHandles : List String
  closeNewOk : String → Bool
  reloadOk : Bool
  retryOutcomes : List Bool

/-- Result of a `dismiss_initial_overlay` call: the event trace, and the
exception that escaped the call, if any. -/
structure DismissRun where
  trace : List Ev
  raised : Option WDErr
deriving DecidableEq

/-- `new_handles = list(after_handles - before_handles)`: the set difference
of the window-handle snapshot after the synthetic click minus the snapshot
taken before it. -/
def dismissNewHandles (env : DismissEnv) : List String :=
  env.afterHandles.filter (fun h => !(env.beforeHandles.contains h))

/-- Embedding of `dismiss_initial_overlay` (monetag_ad_tester.py).  Control
flow mirrors the source: read the primary handle (early return on failure);
locator pass (return on first success); unprotected reads of `current_url`
and the before-snapshot of `window_handles`; body click, falling back to an
offset click (return if both fail); unprotected read of the after-snapshot;
close each newly-opened window (suppressed per handle); suppressed switch
back to the primary; reload the original address only when a new window
appeared (suppressed); unconditional retry pass over the locator list. -/
def dismiss_initial_overlay (env : DismissEnv) : DismissRun :=
  if !env.currentHandleOk then ⟨[], none⟩
  else
    let fp := firstPassL env.locOutcomes 0
    if fp.2 then ⟨fp.1, none⟩
    else if !env.currentUrlOk then ⟨fp.1, some .comm⟩
    else if !env.beforeReadOk then ⟨fp.1, some .comm⟩
    else
      let clickEvs :=
        if env.bodyClickOk then some [Ev.bodyClicked]
        else if env.offsetClickOk then some [Ev.bodyClickFailed, Ev.offsetClicked]
        else none
      match clickEvs with
      | none => ⟨fp.1 ++ [Ev.bodyClickFailed, Ev.offsetClickFailed], none⟩
      | some ce =>
          if !env.afterReadOk then ⟨fp.1 ++ ce, some .comm⟩
          else
            let newHandles := dismissNewHandles env
            let closeEvs := newHandles.map (fun h =>
              if env.closeNewOk h then Ev.closedNewWindow h else Ev.closeNewFailed h)
            let reloadEvs :=
              if newHandles.isEmpty then []
              else if env.reloadOk then [Ev.reloaded env.currentUrl] else [Ev.reloadFailed]
            ⟨fp.1 ++ ce ++ closeEvs ++ [Ev.switchedBack] ++ reloadEvs ++
              retryPassL env.retryOutcomes 0, none⟩

/-- One entry of the fallback close-button search of
`close_ad_popup_if_present`: displayed/enabled state and whether the click
succeeds. -/
structure FallbackBtn where
  displayed : Bool
  enabled : Bool
  clickOk : Bool
deriving DecidableEq

/-- The fallback scan: click the first displayed+enabled button; a click
exception aborts the whole `try` block (the function then returns `false`). -/
def fallbackScan : List FallbackBtn → Bool
  | [] => false
  | b :: rest => if b.displayed && b.enabled then b.clickOk else fallbackScan rest

/-- Driver responses for one `close_ad_popup_if_present` call; `locOutcomes`
has one entry per element of `popup_locators` (three locators in the
source). -/
structure PopupEnv where
  locOutcomes : List LocOutcome
  findFallbackOk : Bool
  fallbackButtons : List FallbackBtn

/-- Embedding of `close_ad_popup_if_present` (edge_ad_render_tester.py):
ordered locator pass (return `true` on the first successful click), then the
close-keyword fallback search, whose own failure is absorbed. -/
def close_ad_popup_if_present (env : PopupEnv) : List Ev × Bool :=
  match firstPassL env.locOutcomes 0 with
  | (tr, true) => (tr, true)
  | (tr, false) =>
      if env.findFallbackOk then (tr, fallbackScan env.fallbackButtons)
      else (tr, false)

/-! ## monetag_ad_tester.wait_for_ads

```
wait = WebDriverWait(driver, timeout)
for locator in AD_IDENTIFIERS:
    try:
        wait.until(EC.presence_of_element_located(locator))
        return True
    except TimeoutException:
        continue
return False
```
Only reads the page; carries no state of its own. -/

/-- The two watched ad-vendor locators of `AD_IDENTIFIERS`. -/
inductive AdLocator
  | iframeMonetag
  | scriptMonetag
deriving DecidableEq

/-- `AD_IDENTIFIERS` (monetag_ad_tester.py). -/
def AD_IDENTIFIERS : List AdLocator := [.iframeMonetag, .scriptMonetag]

/-- `WAIT_TIMEOUT` (monetag_ad_tester.py). -/
def WAIT_TIMEOUT : Nat := 12

/-- The page as seen by `wait_for_ads`: whether each watched locator becomes
present within a bounded wait of the given number of seconds. -/
structure AdPage where
  appearsWithin : AdLocator → Nat → Bool

/-- The locator loop of `wait_for_ads`. -/
def waitForAdsGo (page : AdPage) (timeout : Nat) : List AdLocator → Bool
  | [] => false
  | l :: rest =>
      if page.appearsWithin l timeout then true else waitForAdsGo page timeout rest

/-- Embedding of `wait_for_ads` (monetag_ad_tester.py).  The returned page is
the unchanged input: the source only polls for element presence and never
mutates the document or driver state. -/
def wait_for_ads (page : AdPage) (timeout : Nat) : Bool × AdPage :=
  (waitForAdsGo page timeout AD_IDENTIFIERS, page)

/-! ## edge_ad_render_tester.inspect_for_ad_elements -/

/-- Watched element kinds (`script` and `iframe` tags). -/
inductive TagKind
  | script
  | iframe
deriving DecidableEq

/-- One DOM element as the detector sees it: its tag kind, its `src`
attribute (absent or possibly empty) and its `outerHTML`. -/
structure Element where
  kind : TagKind
  src : Option String
  outerHTML : Option String
deriving DecidableEq

/-- Python `a or b or ""` over the two attribute reads: an absent or empty
first operand falls through to the second, an absent second to `""`. -/
def pyAttrOr (a b : Option String) : String :=
  match a with
  | some s => if s = "" then (match b with | some t => t | none => "") else s
  | none => match b with | some t => t | none => ""

/-- Descriptor of an element: `(src or outerHTML or "").lower()`, as a
character list. -/
def descriptor (e : Element) : List Char :=
  ((pyAttrOr e.src e.outerHTML).toList.map Char.toLower)

/-- `ad_keywords` (edge_ad_render_tester.py). -/
def ad_keywords : List (List Char) :=
  ["ads".toList, "advert".toList, "doubleclick".toList, "googlesyndication".toList,
   "adservice".toList, "adnxs".toList, "taboola".toList, "outbrain".toList]

/-- Whether `needle` is a leading segment of `hay`. -/
def isPrefixL : List Char → List Char → Bool
  | [], _ => true
  | _ :: _, [] => false
  | a :: as, b :: bs => a == b && isPrefixL as bs

/-- Python substring containment `needle in hay` over character lists. -/
def isInfixL (needle : List Char) : List Char → Bool
  | [] => isPrefixL needle []
  | b :: rest => isPrefixL needle (b :: rest) || isInfixL needle rest

/-- `any(keyword in descriptor for keyword in ad_keywords)`. -/
def isAdElement (e : Element) : Bool :=
  ad_keywords.any (fun k => isInfixL k (descriptor e))

/-- One scan loop of `inspect_for_ad_elements`: over the elements of one tag
kind in document order, record `(kind, descriptor[:160])` for each element
whose descriptor contains an ad keyword. -/
def scanKind (doc : List Element) (k : TagKind) : List (TagKind × List Char) :=
  (doc.filter (fun e => e.kind == k)).filterMap
    (fun e => if isAdElement e then some (k, (descriptor e).take 160) else none)

/-- Embedding of `inspect_for_ad_elements` (edge_ad_render_tester.py): scan
all `script` tags, then all `iframe` tags; return whether anything was found
together with the recorded matches (the source logs the matches and returns
the boolean). -/
def inspect_for_ad_elements (doc : List Element) : Bool × List (TagKind × List Char) :=
  let found := scanKind doc .script ++ scanKind doc .iframe
  (!found.isEmpty, found)

/-! ## Per-cycle records and the three `main` entry points -/

/-- Python truthiness of an optional string (`None` and `""` are falsy). -/
def pyTruthyStr : Option String → Bool
  | none => false
  | some s => !(s == "")

/-- `ViewResult` (monetag_ad_tester.py). -/
structure ViewResult where
  number : Nat
  ads_detected : Bool
  error : Option String
deriving DecidableEq

/-- `main` of monetag_ad_tester.py, as a function of the outcome of
`perform_test_cycle()`: 1 if the driver could not be initialised, else 2 if
any view has a truthy error or missed the ad signal, else 0. -/
def monetag_ad_tester_main : Except WDErr (List ViewResult) → Nat
  | .error _ => 1
  | .ok results =>
      let failures := results.filter (fun r => pyTruthyStr r.error || !r.ads_detected)
      if !failures.isEmpty then 2 else 0

/-- `ClickResult` (monetag_nav_click_tester.py). -/
structure ClickResult where
  iteration : Nat
  clicked_label : String
  href : String
  ads_detected : Bool
  both_buttons_visible : Bool
  popup_urls : List String
  error : Option String
  debug_notes : Option String
deriving DecidableEq

/-- `main` of monetag_nav_click_tester.py: 1 if the driver could not be
initialised; otherwise the issue list is computed only for the printed
summary and the function returns 0 unconditionally. -/
def monetag_nav_click_main : Except WDErr (List ClickResult) → Nat
  | .error _ => 1
  | .ok results =>
      let _issues := results.filter (fun r => pyTruthyStr r.error)
      0

/-- `PlayAttemptResult` (monetag_play_button_tester.py). -/
structure PlayAttemptResult where
  attempt : Nat
  href : String
  ads_detected : Bool
  buttons_visible : Bool
  popup_urls : List String
  error : Option String
  debug_notes : Option String
deriving DecidableEq

/-- `main` of monetag_play_button_tester.py: 1 if the driver could not be
initialised; otherwise the ad/error lists are computed only for the printed
summary and the function returns 0 unconditionally. -/
def monetag_play_button_main : Except WDErr (List PlayAttemptResult) → Nat
  | .error _ => 1
  | .ok results =>
      let _ads := results.filter (fun r => r.ads_detected)
      let _errors := results.filter (fun r => pyTruthyStr r.error)
      0

/-! ## Interaction cycles whose records couple ad detection to UI visibility -/

/-- Behaviour of one newly-opened popup window during a cycle: its address,
whether `wait_for_ads` finds Monetag elements in it, and whether switching to
it and reading its address succeeds (on a `WebDriverException` the popup is
skipped and only closed). -/
structure PopupBehavior where
  url : String
  hasAds : Bool
  handleOk : Bool
deriving DecidableEq

/-- Driver responses for one iteration of
`monetag_nav_click_tester.exercise_navigation`.  `clickableOk = false`
makes the `WebDriverWait` for the navigation button time out, which the
surrounding `except Exception` handler converts into an error record. -/
structure NavEnv where
  clickableOk : Bool
  label : String
  href : String
  visAfterClick : Bool
  popups : List PopupBehavior
  visAfterReload : Bool
  visAfterRetry : Bool
  mainAds : Bool

/-- Record produced by one loop iteration of `exercise_navigation`
(monetag_nav_click_tester.py), mirroring the source: visibility is
re-checked after a reload (only when popups appeared) and after one overlay
retry (only when still not visible); `ads_detected` is the popup scan result,
forced to `true` when the buttons are not visible, else possibly set by the
main-page `wait_for_ads`; the `except` path records an error result with
`ads_detected=False` and `both_buttons_visible=False`.  Diagnostic note text
is abstracted to `none`. -/
def nav_click_cycle (env : NavEnv) (iteration : Nat) : ClickResult :=
  if !env.clickableOk then
    { iteration := iteration, clicked_label := "<unknown>", href := "",
      ads_detected := false, both_buttons_visible := false, popup_urls := [],
      error := some "TimeoutException", debug_notes := none }
  else
    let popup_urls := (env.popups.filter (fun p => p.handleOk)).map (fun p => p.url)
    let adsPopups := env.popups.any (fun p => p.handleOk && p.hasAds)
    let both0 := env.visAfterClick
    let both1 := if !env.popups.isEmpty then env.visAfterReload else both0
    let both2 := if !both1 then env.visAfterRetry else both1
    let ads1 := adsPopups || !both2
    let ads2 := if !ads1 && env.mainAds then true else ads1
    { iteration := iteration, clicked_label := env.label, href := env.href,
      ads_detected := ads2, both_buttons_visible := both2,
      popup_urls := popup_urls, error := none, debug_notes := none }

/-- Driver responses for one `click_games_button` call
(monetag_play_button_tester.py).  `gamesVisible = false` or
`enabledOk = false` triggers the early `TimeoutException` return path. -/
structure PlayEnv where
  gamesVisible : Bool
  enabledOk : Bool
  href : String
  navVisibleAfter : Bool
  popups : List PopupBehavior
  mainAds : Bool

/-- Embedding of `click_games_button` (monetag_play_button_tester.py).  On
the early path the caught `TimeoutException` is recorded as an error result;
on the normal path the returned record sets
`ads_detected = ads or bool(new_handles) or not both_visible`.  Diagnostic
note text is abstracted to `none`. -/
def click_games_button (env : PlayEnv) (attempt : Nat) : PlayAttemptResult :=
  if !(env.gamesVisible && env.enabledOk) then
    { attempt := attempt, href := "", ads_detected := false,
      buttons_visible := false, popup_urls := [],
      error := some "Games button not clickable", debug_notes := none }
  else
    let both_visible := env.navVisibleAfter
    let popup_urls := (env.popups.filter (fun p => p.handleOk)).map (fun p => p.url)
    let adsPopups := env.popups.any (fun p => p.handleOk && p.hasAds)
    let ads1 := if !adsPopups && env.mainAds then true else adsPopups
    { attempt := attempt, href := env.href,
      ads_detected := ads1 || !env.popups.isEmpty || !both_visible,
      buttons_visible := both_visible, popup_urls := popup_urls,
      error := none, debug_notes := none }

/-! ## Theorems -/

/-- C2: the overlay dismisser tries its configured close-button locators
strictly in list order, waiting up to the per-locator timeout for each; on
the first locator that succeeds it clicks and returns immediately without
trying any later locator, so for a locator list where only the third entry
is clickable exactly two timeout attempts precede the successful click.
This holds for `dismiss_initial_overlay` (five configured locators; later
outcomes `o4`, `o5` are arbitrary and never consulted) and for
`close_ad_popup_if_present` (three configured locators). -/
theorem c2_locator_order (env : DismissEnv) (penv : PopupEnv) (o4 o5 : LocOutcome)
    (h1 : env.currentHandleOk = true)
    (h2 : env.locOutcomes = [.timedOut, .timedOut, .clickable, o4, o5])
    (h3 : penv.locOutcomes = [.timedOut, .timedOut, .clickable]) :
    dismiss_initial_overlay env = ⟨[.locTimeout 0, .locTimeout 1, .locClosed 2], none⟩ ∧
    close_ad_popup_if_present penv = ([.locTimeout 0, .locTimeout 1, .locClosed 2], true) := by
  constructor
  · simp [dismiss_initial_overlay, h1, h2, firstPassL]
  · simp [close_ad_popup_if_present, h3, firstPassL]

/-- Concrete environment exercising the C2 scenario for
`dismiss_initial_overlay`. -/
def dismissEnvC2 : DismissEnv :=
  { currentHandleOk := true,
    locOutcomes := [.timedOut, .timedOut, .clickable, .timedOut, .timedOut],
    currentUrlOk := true, currentUrl := "home", beforeReadOk := true,
    beforeHandles := ["m"], bodyClickOk := true, offsetClickOk := true,
    afterReadOk := true, afterHandles := ["m"], closeNewOk := fun _ => true,
    reloadOk := true, retryOutcomes := [false, false, false, false, false] }

/-- Concrete environment exercising the C2 scenario for
`close_ad_popup_if_present`. -/
def popupEnvC2 : PopupEnv :=
  { locOutcomes := [.timedOut, .timedOut, .clickable],
    findFallbackOk := true, fallbackButtons := [] }

/-- C2 witness: the two-timeouts-then-click scenario at concrete inputs. -/
theorem c2_witness :
    dismiss_initial_overlay dismissEnvC2
      = ⟨[.locTimeout 0, .locTimeout 1, .locClosed 2], none⟩ ∧
    close_ad_popup_if_present popupEnvC2
      = ([.locTimeout 0, .locTimeout 1, .locClosed 2], true) :=
  c2_locator_order dismissEnvC2 popupEnvC2 .timedOut .timedOut rfl rfl rfl

/-- C3: `wait_for_ads` returns `true` exactly when one of its watched
ad-vendor locators appears within the bounded wait, `false` when none does;
it leaves the page state untouched, and an immediate repeated call returns
the same answer (no state is carried between calls). -/
theorem c3_wait_for_ads (page : AdPage) (t : Nat) :
    ((wait_for_ads page t).1 = true ↔
      ∃ l ∈ AD_IDENTIFIERS, page.appearsWithin l t = true) ∧
    (wait_for_ads page t).2 = page ∧
    wait_for_ads (wait_for_ads page t).2 t = wait_for_ads page t := by
  refine ⟨?_, rfl, rfl⟩
  cases h1 : page.appearsWithin .iframeMonetag t <;>
    cases h2 : page.appearsWithin .scriptMonetag t <;>
      simp [wait_for_ads, waitForAdsGo, AD_IDENTIFIERS, h1, h2]

lemma scanKind_append (l1 l2 : List Element) (k : TagKind) :
    scanKind (l1 ++ l2) k = scanKind l1 k ++ scanKind l2 k := by
  simp [scanKind, List.filter_append, List.filterMap_append]

lemma scanKind_of_no_ads (l : List Element) (k : TagKind)
    (h : ∀ x ∈ l, isAdElement x = false) : scanKind l k = [] := by
  rw [scanKind, List.filterMap_eq_nil_iff]
  intro e he
  have : isAdElement e = false := h e (List.mem_of_mem_filter he)
  simp [this]

lemma scanKind_single_hit (e : Element) (k : TagKind)
    (hk : e.kind = k) (ha : isAdElement e = true) :
    scanKind [e] k = [(k, (descriptor e).take 160)] := by
  simp [scanKind, hk, ha]

lemma scanKind_single_miss (e : Element) (k : TagKind) (hk : e.kind ≠ k) :
    scanKind [e] k = [] := by
  have : (e.kind == k) = false := by simp [hk]
  simp [scanKind, this]

lemma mem_scanKind (doc : List Element) (k : TagKind) (d : List Char)
    (h : (k, d) ∈ scanKind doc k) :
    ∃ x ∈ doc, x.kind = k ∧ isAdElement x = true ∧ d = (descriptor x).take 160 := by
  rw [scanKind] at h
  rcases List.mem_filterMap.mp h with ⟨x, hx, hfx⟩
  rcases List.mem_filter.mp hx with ⟨hxdoc, hxk⟩
  by_cases had : isAdElement x = true
  · refine ⟨x, hxdoc, by simpa using hxk, had, ?_⟩
    rw [if_pos had] at hfx
    exact (congrArg Prod.snd (Option.some.inj hfx)).symm
  · rw [if_neg had] at hfx
    exact absurd hfx (by simp)

/-- C7: the ad signal detector.  (1) On a document containing an iframe whose
address descriptor contains `doubleclick` (case-insensitively, via the
lower-cased descriptor) while no other element matches any ad keyword, it
reports `found = true` with exactly one recorded match of kind `iframe`.
(2) On a document where no script or iframe descriptor contains any ad
keyword it reports `found = false` with an empty match list.  (3) Every
recorded descriptor is the element's `src` if present (non-empty), else its
raw markup, lower-cased and truncated to at most 160 characters. -/
theorem c7_detector :
    (∀ (pre post : List Element) (e : Element),
      e.kind = .iframe →
      isInfixL ("doubleclick".toList) (descriptor e) = true →
      (∀ x ∈ pre ++ post, isAdElement x = false) →
      inspect_for_ad_elements (pre ++ e :: post)
        = (true, [(.iframe, (descriptor e).take 160)])) ∧
    (∀ doc : List Element, (∀ x ∈ doc, isAdElement x = false) →
      inspect_for_ad_elements doc = (false, [])) ∧
    (∀ (doc : List Element) (k : TagKind) (d : List Char),
      (k, d) ∈ (inspect_for_ad_elements doc).2 →
      ∃ x ∈ doc, x.kind = k ∧ isAdElement x = true ∧
        d = (descriptor x).take 160) := by
  refine ⟨?_, ?_, ?_⟩
  · intro pre post e hkind hdc hrest
    have hpre : ∀ x ∈ pre, isAdElement x = false := fun x hx =>
      hrest x (List.mem_append_left _ hx)
    have hpost : ∀ x ∈ post, isAdElement x = false := fun x hx =>
      hrest x (List.mem_append_right _ hx)
    have hAd : isAdElement e = true := by
      rw [isAdElement, List.any_eq_true]
      exact ⟨"doubleclick".toList, by simp [ad_keywords], hdc⟩
    have hsplit : pre ++ e :: post = (pre ++ [e]) ++ post := by simp
    rw [inspect_for_ad_elements, hsplit]
    rw [scanKind_append, scanKind_append, scanKind_append, scanKind_append]
    rw [scanKind_of_no_ads pre _ hpre, scanKind_of_no_ads post _ hpost,
        scanKind_of_no_ads pre _ hpre, scanKind_of_no_ads post _ hpost,
        scanKind_single_miss e .script (by simp [hkind]),
        scanKind_single_hit e .iframe hkind hAd]
    simp
  · intro doc h
    rw [inspect_for_ad_elements,
        scanKind_of_no_ads doc _ h, scanKind_of_no_ads doc _ h]
    simp
  · intro doc k d hmem
    rw [inspect_for_ad_elements] at hmem
    simp only [List.mem_append] at hmem
    rcases hmem with hmem | hmem
    · have hk : k = TagKind.script := by
        rcases List.mem_filterMap.mp hmem with ⟨x, _, hfx⟩
        by_cases had : isAdElement x = true
        · rw [if_pos had] at hfx
          exact (congrArg Prod.fst (Option.some.inj hfx)).symm
        · rw [if_neg had] at hfx; exact absurd hfx (by simp)
      exact mem_scanKind doc k d (hk ▸ hmem)
    · have hk : k = TagKind.iframe := by
        rcases List.mem_filterMap.mp hmem with ⟨x, _, hfx⟩
        by_cases had : isAdElement x = true
        · rw [if_pos had] at hfx
          exact (congrArg Prod.fst (Option.some.inj hfx)).symm
        · rw [if_neg had] at hfx; exact absurd hfx (by simp)
      exact mem_scanKind doc k d (hk ▸ hmem)

/-- An iframe whose address contains `doubleclick` in mixed case. -/
def iframeDC : Element := ⟨.iframe, some "DoubleClick", none⟩

/-- A script element matching no ad keyword. -/
def plainScript : Element := ⟨.script, some "x.js", none⟩

/-- C7 witness: the detector evaluated at concrete one-element documents. -/
theorem c7_witness :
    inspect_for_ad_elements [iframeDC]
      = (true, [(.iframe, (descriptor iframeDC).take 160)]) ∧
    inspect_for_ad_elements [plainScript] = (false, []) ∧
    (∃ x ∈ [iframeDC], x.kind = TagKind.iframe ∧ isAdElement x = true ∧
      (descriptor iframeDC).take 160 = (descriptor x).take 160) :=
  ⟨c7_detector.1 [] [] iframeDC rfl (by decide) (by simp),
   c7_detector.2.1 [plainScript] (by decide),
   c7_detector.2.2 [iframeDC] .iframe ((descriptor iframeDC).take 160) (by decide)⟩

/-- A completed nav-click run whose single cycle recorded an error. -/
def crBad : ClickResult :=
  { iteration := 1, clicked_label := "Home", href := "", ads_detected := false,
    both_buttons_visible := false, popup_urls := [],
    error := some "boom", debug_notes := none }

/-- C9 counterexample: `monetag_nav_click_tester.main` returns exit status 0
for a completed run whose (only) cycle recorded an error, contradicting the
claim that the status is non-zero whenever at least one cycle recorded an
error. -/
theorem c9_counterexample :
    monetag_nav_click_main (.ok [crBad]) = 0 ∧ pyTruthyStr crBad.error = true := by
  constructor <;> rfl

/-- C9 as amended: only `monetag_ad_tester.main` implements the claimed exit
contract (0 exactly when every view is error-free and saw the expected ad
signal, 2 otherwise, 1 when the driver cannot be initialised).  The
nav-click and play-button testers return 1 only when driver initialisation
fails and otherwise return 0 unconditionally, even when cycles recorded
errors. -/
theorem c9_exit_codes (res : List ViewResult) (nres : List ClickResult)
    (pres : List PlayAttemptResult) (e : WDErr) :
    (monetag_ad_tester_main (.ok res) = 0 ↔
      ∀ r ∈ res, pyTruthyStr r.error = false ∧ r.ads_detected = true) ∧
    (monetag_ad_tester_main (.ok res) = 0 ∨ monetag_ad_tester_main (.ok res) = 2) ∧
    monetag_ad_tester_main (.error e) = 1 ∧
    monetag_nav_click_main (.ok nres) = 0 ∧
    monetag_nav_click_main (.error e) = 1 ∧
    monetag_play_button_main (.ok pres) = 0 ∧
    monetag_play_button_main (.error e) = 1 := by
  refine ⟨?_, ?_, rfl, rfl, rfl, rfl, rfl⟩
  · rw [monetag_ad_tester_main]
    by_cases h : (res.filter (fun r => pyTruthyStr r.error || !r.ads_detected)) = []
    · simp only [h]
      simp only [List.filter_eq_nil_iff] at h
      simp only [List.isEmpty_nil, Bool.not_true, if_false]
      constructor
      · intro _ r hr
        have := h r hr
        simp only [Bool.or_eq_true, not_or, Bool.not_eq_true] at this
        exact ⟨this.1, by simpa using this.2⟩
      · intro _; rfl
    · have hne : (res.filter (fun r => pyTruthyStr r.error || !r.ads_detected)).isEmpty = false := by
        simpa [List.isEmpty_iff] using h
      simp only [hne, Bool.not_false, if_true]
      constructor
      · intro h2; exact absurd h2 (by decide)
      · intro hall
        exfalso
        apply h
        rw [List.filter_eq_nil_iff]
        intro r hr
        have := hall r hr
        simp [this.1, this.2]
  · rw [monetag_ad_tester_main]
    by_cases h : (res.filter (fun r => pyTruthyStr r.error || !r.ads_detected)).isEmpty
    · left; simp [h]
    · right; simp [Bool.not_eq_true] at h; simp [h]

lemma filter_eq_single {l : List String} {a : String} (hd : l.Nodup) (hm : a ∈ l) :
    l.filter (fun x => decide (x = a)) = [a] := by
  induction l with
  | nil => cases hm
  | cons b t ih =>
      rcases List.nodup_cons.mp hd with ⟨hbt, hdt⟩
      rcases List.mem_cons.mp hm with h | h
      · subst h
        rw [List.filter_cons_of_pos (by simp)]
        have ht : t.filter (fun x => decide (x = a)) = [] := by
          rw [List.filter_eq_nil_iff]
          intro x hx
          simp only [decide_eq_true_eq]
          rintro rfl; exact hbt hx
        rw [ht]
      · have hba : b ≠ a := by rintro rfl; exact hbt h
        rw [List.filter_cons_of_neg (by simp [hba])]
        exact ih hdt h

lemma switchTo_ok_handles (env : WinEnv) (s : WinSession) (h : String) (s2 : WinSession)
    (heq : switchTo env s h = .ok s2) : s2.handles = s.handles := by
  rw [switchTo] at heq
  split at heq
  · cases heq
  · split at heq
    · cases heq; rfl
    · cases heq

lemma closeLoop_ok (env : WinEnv) (main : String)
    (hsw : ∀ h, env.switchFault h = false) (hcl : ∀ h, env.closeFault h = false) :
    ∀ (l : List String) (s : WinSession), l.Nodup → (∀ x ∈ l, x ∈ s.handles) →
    ∃ c, closeLoop env main l s
      = .ok ⟨s.handles.filter (fun x => decide (x = main) || !(decide (x ∈ l))), c⟩ := by
  intro l
  induction l with
  | nil =>
      intro s _ _
      refine ⟨s.current, ?_⟩
      simp [closeLoop]
  | cons h rest ih =>
      intro s hnd hsub
      rcases List.nodup_cons.mp hnd with ⟨hhr, hndr⟩
      by_cases hhm : h = main
      · rw [closeLoop, if_pos hhm]
        rcases ih s hndr (fun x hx => hsub x (List.mem_cons_of_mem _ hx)) with ⟨c, hc⟩
        have hfil : s.handles.filter (fun x => decide (x = main) || !(decide (x ∈ rest)))
            = s.handles.filter (fun x => decide (x = main) || !(decide (x ∈ h :: rest))) := by
          apply List.filter_congr
          intro x _
          by_cases hxm : x = main
          · simp [hxm]
          · simp [List.mem_cons, hxm, hhm]
        refine ⟨c, ?_⟩
        rw [hc, hfil]
      · rw [closeLoop, if_neg hhm]
        have hhs : h ∈ s.handles := hsub h (List.mem_cons_self h rest)
        have hstep : switchTo env s h = .ok { s with current := h } := by
          rw [switchTo, hsw h, if_neg (by simp), if_pos hhs]
        have hclose : closeCurrent env { s with current := h }
            = .ok ⟨s.handles.filter (fun x => !(x == h)), h⟩ := by
          rw [closeCurrent]
          simp only [hcl]
          rw [if_neg (by simp)]
        simp only [hstep, hclose]
        have hsub2 : ∀ x ∈ rest, x ∈ s.handles.filter (fun x => !(x == h)) := by
          intro x hx
          rw [List.mem_filter]
          refine ⟨hsub x (List.mem_cons_of_mem _ hx), ?_⟩
          have : x ≠ h := by rintro rfl; exact hhr hx
          simp [this]
        rcases ih ⟨s.handles.filter (fun x => !(x == h)), h⟩ hndr hsub2 with ⟨c, hc⟩
        have hfil : (s.handles.filter (fun x => !(x == h))).filter
              (fun x => decide (x = main) || !(decide (x ∈ rest)))
            = s.handles.filter (fun x => decide (x = main) || !(decide (x ∈ h :: rest))) := by
          rw [List.filter_filter]
          apply List.filter_congr
          intro x _
          by_cases hxh : x = h
          · simp [hxh, hhm, List.mem_cons]
          · by_cases hxm : x = main
            · simp [hxm, hxh]
              exact hxm ▸ hxh
            · simp [hxm, hxh, List.mem_cons]
        refine ⟨c, ?_⟩
        rw [hc, hfil]

lemma cawLoop_handles (env : WinEnv) (p : String) :
    ∀ (l : List String) (s : WinSession),
    (cawLoop env p l s).handles
      = s.handles.filter
          (fun x => decide (x = p) || wdFaulty env x || !(decide (x ∈ l))) := by
  intro l
  induction l with
  | nil =>
      intro s
      rw [cawLoop]
      symm
      apply List.filter_eq_self.mpr
      intro x _
      simp
  | cons h rest ih =>
      intro s
      rw [cawLoop]
      by_cases hhp : h = p
      · rw [if_pos hhp, ih]
        apply List.filter_congr
        intro x _
        by_cases hxp : x = p
        · simp [hxp]
        · simp [List.mem_cons, hxp, hhp]
      · rw [if_neg hhp, ih]
        by_cases hsf : env.switchFault h = true
        · have hstep : cawStep env s h = s := by
            rw [cawStep, switchTo, if_pos hsf]
          rw [hstep]
          apply List.filter_congr
          intro x _
          by_cases hxh : x = h
          · simp [hxh, List.mem_cons, wdFaulty, hsf]
          · simp [hxh, List.mem_cons]
        · rw [Bool.not_eq_true] at hsf
          by_cases hmem : h ∈ s.handles
          · by_cases hcf : env.closeFault h = true
            · have hstep : (cawStep env s h).handles = s.handles := by
                simp [cawStep, switchTo, closeCurrent, hsf, hmem, hcf]
              rw [hstep]
              apply List.filter_congr
              intro x _
              by_cases hxh : x = h
              · simp [hxh, List.mem_cons, wdFaulty, hcf]
              · simp [hxh, List.mem_cons]
            · rw [Bool.not_eq_true] at hcf
              have hstep : (cawStep env s h).handles
                  = s.handles.filter (fun x => !(x == h)) := by
                simp [cawStep, switchTo, closeCurrent, hsf, hmem, hcf]
              rw [hstep]
              simp only [List.filter_filter]
              apply List.filter_congr
              intro x _
              by_cases hxh : x = h
              · simp [hxh, List.mem_cons, wdFaulty, hsf, hcf, hhp]
              · by_cases hxp : x = p
                · simp [hxp, hxh]
                  exact hxp ▸ hxh
                · simp [hxp, hxh, List.mem_cons]
          · have hstep : cawStep env s h = s := by
              rw [cawStep, switchTo, hsf]
              rw [if_neg (by simp), if_neg hmem]
            rw [hstep]
            apply List.filter_congr
            intro x hx
            by_cases hxh : x = h
            · exact absurd (hxh ▸ hx) hmem
            · simp [hxh, List.mem_cons]

lemma close_additional_windows_handles (env : CawEnv) (s : WinSession)
    (hch : env.currentHandleFault = false) :
    (close_additional_windows env s).handles
      = s.handles.filter (fun x => decide (x = s.current) || wdFaulty env.base x) := by
  rw [close_additional_windows, hch]
  simp only [Bool.false_eq_true, if_false]
  have hfin : ∀ r : WinSession,
      (match switchTo env.base r s.current with
        | .ok s2 => s2
        | .error _ => r).handles = r.handles := by
    intro r
    cases hh : switchTo env.base r s.current with
    | ok s2 => simpa using switchTo_ok_handles env.base r s.current s2 hh
    | error e => simp
  rw [hfin]
  rw [cawLoop_handles]
  apply List.filter_congr
  intro x hx
  simp [hx]

/-- The session of the C1/C5 counterexamples: a primary `p` plus one
secondary `h2`. -/
def cexSession : WinSession := ⟨["p", "h2"], "p"⟩

/-- Fault model of the C1 counterexample: switching to the secondary `h2`
raises a `WebDriverException`; everything else succeeds. -/
def cexCawEnv : CawEnv := ⟨⟨fun h => h == "h2", fun _ => false⟩, false⟩

/-- C1 counterexample: `close_additional_windows` returns normally (it is
total — every fault is suppressed), yet afterwards the window enumeration
still contains two handles, because the suppressed per-handle fault left the
secondary open; the function also returns no handle at all (Python returns
`None`).  This refutes the claim that every normally-returning
reconciliation call leaves exactly one handle equal to the returned value. -/
theorem c1_counterexample :
    (close_additional_windows cexCawEnv cexSession).handles = ["p", "h2"] ∧
    (close_additional_windows cexCawEnv cexSession).handles.length ≠ 1 := by
  constructor
  · rfl
  · decide

/-- C1 as amended: when every session operation succeeds and the primary is
present in a duplicate-free enumeration, both reconcilers leave exactly one
handle — the primary — open and focused; `close_unexpected_windows` returns
it (`close_additional_windows` returns no value).  When a per-handle
switch/close fault is suppressed, `close_additional_windows` can return
normally with more than one handle still enumerated (see the
counterexample). -/
theorem c1_reconcile_clean (env : WinEnv) (cenv : CawEnv) (s t : WinSession) (main : String)
    (hsw : ∀ h, env.switchFault h = false) (hcl : ∀ h, env.closeFault h = false)
    (hnd : s.handles.Nodup) (hmem : main ∈ s.handles)
    (hsw2 : ∀ h, cenv.base.switchFault h = false)
    (hcl2 : ∀ h, cenv.base.closeFault h = false)
    (hch : cenv.currentHandleFault = false)
    (hnd2 : t.handles.Nodup) (hmem2 : t.current ∈ t.handles) :
    close_unexpected_windows env s main = .ok ⟨⟨[main], main⟩, main, false⟩ ∧
    close_additional_windows cenv t = ⟨[t.current], t.current⟩ := by
  constructor
  · rcases closeLoop_ok env main hsw hcl s.handles s hnd (fun x hx => hx) with ⟨c, hc⟩
    have hfil : s.handles.filter
          (fun x => decide (x = main) || !(decide (x ∈ s.handles))) = [main] := by
      have heq : s.handles.filter (fun x => decide (x = main) || !(decide (x ∈ s.handles)))
          = s.handles.filter (fun x => decide (x = main)) := by
        apply List.filter_congr
        intro x hx
        simp [hx]
      rw [heq]
      exact filter_eq_single hnd hmem
    have hswm : switchTo env ⟨[main], c⟩ main = .ok ⟨[main], main⟩ := by
      rw [switchTo, hsw main]
      rw [if_neg (by simp), if_pos (by simp)]
    rw [close_unexpected_windows, hc]
    simp only [hfil]
    rw [if_neg (by simp)]
    simp only [hswm]
  · have hhandles := close_additional_windows_handles cenv t hch
    have hfil2 : t.handles.filter
          (fun x => decide (x = t.current) || wdFaulty cenv.base x) = [t.current] := by
      have heq : t.handles.filter (fun x => decide (x = t.current) || wdFaulty cenv.base x)
          = t.handles.filter (fun x => decide (x = t.current)) := by
        apply List.filter_congr
        intro x _
        simp [wdFaulty, hsw2 x, hcl2 x]
      rw [heq]
      exact filter_eq_single hnd2 hmem2
    rw [hfil2] at hhandles
    have hmem3 : t.current ∈ (cawLoop cenv.base t.current t.handles t).handles := by
      rw [cawLoop_handles, List.mem_filter]
      exact ⟨hmem2, by simp⟩
    have hcur : (close_additional_windows cenv t).current = t.current := by
      rw [close_additional_windows, hch]
      simp only [Bool.false_eq_true, if_false]
      cases hh : switchTo cenv.base (cawLoop cenv.base t.current t.handles t) t.current with
      | ok s2 =>
          show s2.current = t.current
          rw [switchTo, hsw2 t.current] at hh
          rw [if_neg (by simp), if_pos hmem3] at hh
          injection hh with h2
          rw [← h2]
      | error e =>
          rw [switchTo, hsw2 t.current] at hh
          rw [if_neg (by simp), if_pos hmem3] at hh
          exact Except.noConfusion hh
    calc close_additional_windows cenv t
        = ⟨(close_additional_windows cenv t).handles,
            (close_additional_windows cenv t).current⟩ := rfl
      _ = ⟨[t.current], t.current⟩ := by rw [hhandles, hcur]

/-- A fault-free window environment. -/
def cleanWinEnv : WinEnv := ⟨fun _ => false, fun _ => false⟩

/-- A fault-free environment for `close_additional_windows`. -/
def cleanCawEnv : CawEnv := ⟨cleanWinEnv, false⟩

/-- A session with primary `m` and one secondary window. -/
def sessionMS : WinSession := ⟨["m", "s1"], "m"⟩

/-- C1 witness: both reconcilers evaluated in a fault-free session with one
secondary window. -/
theorem c1_witness :
    close_unexpected_windows cleanWinEnv sessionMS "m" = .ok ⟨⟨["m"], "m"⟩, "m", false⟩ ∧
    close_additional_windows cleanCawEnv sessionMS = ⟨["m"], "m"⟩ :=
  c1_reconcile_clean cleanWinEnv cleanCawEnv sessionMS sessionMS "m"
    (fun _ => rfl) (fun _ => rfl) (by decide) (by decide)
    (fun _ => rfl) (fun _ => rfl) rfl (by decide) (by decide)

/-- Fault model of the C5 counterexample: switching to handle `h2` raises. -/
def cexWinEnvB : WinEnv := ⟨fun h => h == "h2", fun _ => false⟩

/-- C5 counterexample: in `close_unexpected_windows` a session-communication
failure while switching to the first secondary window (`h2`) propagates out
of the call as an exception — it is not absorbed per-handle, and the
remaining secondary `h3` is never reconciled. -/
theorem c5_counterexample :
    close_unexpected_windows cexWinEnvB ⟨["m", "h2", "h3"], "m"⟩ "m" = .error .comm := rfl

/-- C5 as amended: `close_additional_windows` absorbs switch/close faults
per-handle — afterwards a handle survives exactly when it is the primary or
its own switch/close faulted, so one unreachable handle never prevents the
others from being closed, and the call always returns normally.  In
`close_unexpected_windows`, by contrast, a switch fault on a secondary
handle propagates out of the call (shown here for a faulty handle heading
the enumeration). -/
theorem c5_fault_isolation (cenv : CawEnv) (t : WinSession)
    (hch : cenv.currentHandleFault = false)
    (env : WinEnv) (s : WinSession) (main h : String) (rest : List String)
    (hhd : s.handles = h :: rest) (hhm : h ≠ main) (hfault : env.switchFault h = true) :
    (close_additional_windows cenv t).handles
      = t.handles.filter (fun x => decide (x = t.current) || wdFaulty cenv.base x) ∧
    close_unexpected_windows env s main = .error .comm := by
  refine ⟨close_additional_windows_handles cenv t hch, ?_⟩
  rw [close_unexpected_windows, hhd]
  rw [closeLoop, if_neg hhm]
  rw [switchTo, if_pos hfault]

/-- Session of the C5 witness: primary `p`, a secondary `f1` whose switch
faults, and a reachable secondary `s2`. -/
def sessionPFS : WinSession := ⟨["p", "f1", "s2"], "p"⟩

/-- Fault model of the C5 witness: only handle `f1` is unreachable. -/
def cawEnvF1 : CawEnv := ⟨⟨fun h => h == "f1", fun _ => false⟩, false⟩

/-- C5 witness: the amended statement at concrete inputs. -/
theorem c5_witness :
    (close_additional_windows cawEnvF1 sessionPFS).handles
      = sessionPFS.handles.filter
          (fun x => decide (x = sessionPFS.current) || wdFaulty cawEnvF1.base x) ∧
    close_unexpected_windows cexWinEnvB ⟨["h2", "m"], "m"⟩ "m" = .error .comm :=
  c5_fault_isolation cawEnvF1 sessionPFS rfl cexWinEnvB ⟨["h2", "m"], "m"⟩ "m" "h2" ["m"]
    rfl (by decide) rfl

/-- C6 counterexample: with the primary handle `h0` absent from the
enumeration and no session faults, `close_unexpected_windows` closes every
enumerated window and then raises a no-such-window error on the final
focus switch — it neither promotes the first handle nor returns without an
exception. -/
theorem c6_counterexample :
    ("h0" ∉ (⟨["h1", "h2"], "h1"⟩ : WinSession).handles) ∧
    close_unexpected_windows ⟨fun _ => false, fun _ => false⟩ ⟨["h1", "h2"], "h1"⟩ "h0"
      = .error .noSuchWindow := by
  exact ⟨by decide, rfl⟩

/-- C6 as amended: when the primary handle is absent from a duplicate-free
enumeration and no session operation faults, the reconciliation loop closes
every enumerated window, so the enumeration is empty afterwards; the
promotion branch (which requires a non-empty enumeration) never fires, and
the final switch to the absent primary raises a no-such-window error
instead of promoting a successor. -/
theorem c6_primary_absent (env : WinEnv) (s : WinSession) (main : String)
    (hsw : ∀ h, env.switchFault h = false) (hcl : ∀ h, env.closeFault h = false)
    (hnd : s.handles.Nodup) (habs : main ∉ s.handles) :
    close_unexpected_windows env s main = .error .noSuchWindow := by
  rcases closeLoop_ok env main hsw hcl s.handles s hnd (fun x hx => hx) with ⟨c, hc⟩
  have hfil : s.handles.filter
      (fun x => decide (x = main) || !(decide (x ∈ s.handles))) = [] := by
    rw [List.filter_eq_nil_iff]
    intro x hx
    simp only [Bool.or_eq_true, decide_eq_true_eq, Bool.not_eq_true',
      decide_eq_false_iff_not, not_or, not_not]
    exact ⟨fun hxm => habs (hxm ▸ hx), hx⟩
  rw [close_unexpected_windows, hc]
  simp only [hfil]
  rw [if_neg (by simp)]
  have hswm : switchTo env ⟨[], c⟩ main = .error .noSuchWindow := by
    rw [switchTo, hsw main]
    rw [if_neg (by simp), if_neg (by simp)]
  simp only [hswm]

/-- C6 witness: the amended statement at a concrete session whose primary
`h9` is not enumerated. -/
theorem c6_witness :
    close_unexpected_windows cleanWinEnv ⟨["h1"], "h1"⟩ "h9" = .error .noSuchWindow :=
  c6_primary_absent cleanWinEnv ⟨["h1"], "h1"⟩ "h9" (fun _ => rfl) (fun _ => rfl)
    (by decide) (by decide)

lemma adsforce (adsPopups both2 mainAds : Bool)
    (h : (if !(adsPopups || !both2) && mainAds then true else (adsPopups || !both2))
        = false) :
    both2 = true := by
  cases adsPopups <;> cases both2 <;> cases mainAds <;> simp_all

lemma adsforce2 (adsPopups mainAds both empt : Bool)
    (h : ((if !adsPopups && mainAds then true else adsPopups) || !empt || !both)
        = false) :
    both = true ∧ empt = true := by
  cases adsPopups <;> cases mainAds <;> cases both <;> cases empt <;> simp_all

/-- The play-button scenario where the Games button is not visible: the
helper catches its own `TimeoutException` and returns an error record. -/
def playEnvBad : PlayEnv :=
  { gamesVisible := false, enabledOk := true, href := "",
    navVisibleAfter := true, popups := [], mainAds := false }

/-- C10 counterexample: a `click_games_button` cycle that completes without
an unhandled exception (the locator timeout is caught inside the helper and
recorded on the result) produces a record with `ads_detected = false` while
the navigation buttons are reported not visible — so `ads_detected` is not
forced to `true` by invisibility on this path, refuting the claimed
implication for all normally-completing cycles. -/
theorem c10_counterexample :
    (click_games_button playEnvBad 1).ads_detected = false ∧
    (click_games_button playEnvBad 1).buttons_visible = false ∧
    (click_games_button playEnvBad 1).error ≠ none := by
  refine ⟨rfl, rfl, by decide⟩

/-- C10 as amended: the coupling holds for every cycle whose recorded result
carries no error (the cycle body ran to completion).  Then
`ads_detected = false` implies the navigation buttons were reported visible,
and in the play-button tester additionally that no popup window was counted
(no new handles, hence no recorded popup addresses).  Error records — the
nav tester's exception path and the play tester's caught button-timeout
path — are excluded, as the counterexample shows they must be. -/
theorem c10_ads_visibility_coupling (env : NavEnv) (i : Nat) (penv : PlayEnv) (a : Nat)
    (hn : (nav_click_cycle env i).error = none)
    (hp : (click_games_button penv a).error = none) :
    ((nav_click_cycle env i).ads_detected = false →
      (nav_click_cycle env i).both_buttons_visible = true) ∧
    ((click_games_button penv a).ads_detected = false →
      (click_games_button penv a).buttons_visible = true ∧
      (click_games_button penv a).popup_urls = [] ∧ penv.popups = []) := by
  constructor
  · cases hck : env.clickableOk
    · rw [nav_click_cycle] at hn
      simp [hck] at hn
    · intro hads
      have hcond : (!env.clickableOk) = false := by rw [hck]; rfl
      rw [nav_click_cycle, hcond] at hads ⊢
      simp only [Bool.false_eq_true, if_false] at hads ⊢
      exact adsforce _ _ _ hads
  · cases hgv : penv.gamesVisible
    · rw [click_games_button] at hp
      simp [hgv] at hp
    · cases heo : penv.enabledOk
      · rw [click_games_button] at hp
        simp [hgv, heo] at hp
      · intro hads
        have hcond : (!(penv.gamesVisible && penv.enabledOk)) = false := by
          rw [hgv, heo]; rfl
        rw [click_games_button, hcond] at hads ⊢
        simp only [Bool.false_eq_true, if_false] at hads ⊢
        have h2 := adsforce2 _ _ _ _ hads
        have hpo : penv.popups = [] := by
          have := h2.2
          rwa [List.isEmpty_eq_true] at this
        refine ⟨h2.1, ?_, hpo⟩
        simp [hpo]

/-- A clean nav-tester iteration: no popups, buttons visible, no ads. -/
def navEnvClean : NavEnv :=
  { clickableOk := true, label := "Home", href := "/", visAfterClick := true,
    popups := [], visAfterReload := true, visAfterRetry := true, mainAds := false }

/-- A clean play-tester attempt: no popups, buttons visible, no ads. -/
def playEnvClean : PlayEnv :=
  { gamesVisible := true, enabledOk := true, href := "/game",
    navVisibleAfter := true, popups := [], mainAds := false }

/-- C10 witness: the amended coupling at concrete error-free cycles. -/
theorem c10_witness :
    ((nav_click_cycle navEnvClean 1).ads_detected = false →
      (nav_click_cycle navEnvClean 1).both_buttons_visible = true) ∧
    ((click_games_button playEnvClean 1).ads_detected = false →
      (click_games_button playEnvClean 1).buttons_visible = true ∧
      (click_games_button playEnvClean 1).popup_urls = [] ∧
      playEnvClean.popups = []) :=
  c10_ads_visibility_coupling navEnvClean 1 playEnvClean 1 rfl rfl

/-- Event classifier: reload attempts (successful or suppressed-failed). -/
def isReloadEv : Ev → Bool
  | .reloaded _ => true
  | .reloadFailed => true
  | _ => false

/-- Event classifier: the first retry-pass attempt (locator index 0). -/
def isRetryStartEv : Ev → Bool
  | .retryClosed 0 => true
  | .retryFailed 0 => true
  | _ => false

/-- Event classifier: per-new-window close attempts. -/
def isCloseNewEv : Ev → Bool
  | .closedNewWindow _ => true
  | .closeNewFailed _ => true
  | _ => false

/-- A dismisser environment in which every strategy is exhausted: all five
locators time out, the body click succeeds but spawns no window, and every
retry fails. -/
def dismissEnvAllFail : DismissEnv :=
  { currentHandleOk := true,
    locOutcomes := [.timedOut, .timedOut, .timedOut, .timedOut, .timedOut],
    currentUrlOk := true, currentUrl := "home", beforeReadOk := true,
    beforeHandles := ["m"], bodyClickOk := true, offsetClickOk := true,
    afterReadOk := true, afterHandles := ["m"], closeNewOk := fun _ => true,
    reloadOk := true, retryOutcomes := [false, false, false, false, false] }

/-- C4 counterexample: in a run of the synthetic-click fallback where no new
window appeared (the after-snapshot minus the before-snapshot is empty), the
retry of the locator pass is still performed — the source's final retry loop
sits outside the `if new_handles:` guard — refuting the claim that the
retry happens only when at least one new window was closed. -/
theorem c4_counterexample :
    dismissNewHandles dismissEnvAllFail = [] ∧
    Ev.retryFailed 0 ∈ (dismiss_initial_overlay dismissEnvAllFail).trace ∧
    (dismiss_initial_overlay dismissEnvAllFail).raised = none := by
  refine ⟨rfl, by decide, rfl⟩

/-- The dismisser environment of the C8 counterexample: the locator pass is
exhausted and then the unprotected `driver.current_url` read raises. -/
def dismissEnvUrlFault : DismissEnv :=
  { currentHandleOk := true,
    locOutcomes := [.timedOut, .timedOut, .timedOut, .timedOut, .timedOut],
    currentUrlOk := false, currentUrl := "home", beforeReadOk := true,
    beforeHandles := ["m"], bodyClickOk := true, offsetClickOk := true,
    afterReadOk := true, afterHandles := ["m"], closeNewOk := fun _ => true,
    reloadOk := true, retryOutcomes := [false, false, false, false, false] }

/-- C8 counterexample: a session-communication failure on the unprotected
`driver.current_url` read (after the locator pass is exhausted) propagates
out of `dismiss_initial_overlay`, refuting the claim that no
session-communication fault ever escapes the call. -/
theorem c8_counterexample :
    (dismiss_initial_overlay dismissEnvUrlFault).raised = some WDErr.comm := rfl

/-- C8 as amended: every element-interaction step of the dismisser (locator
waits and clicks, body/offset clicks, per-window closes, the switch back,
the reload, the retry clicks) absorbs its session errors locally, and
exhaustion of all strategies is a non-error no-op return; but the three
unprotected session reads — `current_url` and the two `window_handles`
snapshots around the synthetic click — are the only steps whose faults
propagate, so whenever those reads succeed no exception escapes the call. -/
theorem c8_absorbs_faults (env : DismissEnv)
    (h1 : env.currentUrlOk = true) (h2 : env.beforeReadOk = true)
    (h3 : env.afterReadOk = true) :
    (dismiss_initial_overlay env).raised = none := by
  cases hch : env.currentHandleOk <;>
    cases hfp : (firstPassL env.locOutcomes 0).2 <;>
      cases hbc : env.bodyClickOk <;>
        cases hoc : env.offsetClickOk <;>
          simp [dismiss_initial_overlay, hch, hfp, hbc, hoc, h1, h2, h3]

/-- C8 witness: the exhausted-strategies environment returns without an
exception. -/
theorem c8_witness : (dismiss_initial_overlay dismissEnvAllFail).raised = none :=
  c8_absorbs_faults dismissEnvAllFail rfl rfl rfl

lemma countP_zero_of_all {p : Ev → Bool} {l : List Ev} (h : ∀ e ∈ l, p e = false) :
    l.countP p = 0 :=
  List.countP_eq_zero.mpr (by intro a ha; simp [h a ha])

lemma firstPassL_mem : ∀ (l : List LocOutcome) (i : Nat), ∀ e ∈ (firstPassL l i).1,
    isReloadEv e = false ∧ isRetryStartEv e = false ∧ isCloseNewEv e = false ∧
    e ≠ Ev.switchedBack := by
  intro l
  induction l with
  | nil => intro i e he; simp [firstPassL] at he
  | cons o rest ih =>
      intro i e he
      cases o with
      | clickable =>
          rw [firstPassL] at he
          simp at he
          subst he
          exact ⟨rfl, rfl, rfl, by simp⟩
      | timedOut =>
          rw [firstPassL] at he
          simp at he
          rcases he with rfl | he
          · exact ⟨rfl, rfl, rfl, by simp⟩
          · exact ih (i + 1) e he
      | clickFailed =>
          rw [firstPassL] at he
          simp at he
          rcases he with rfl | he
          · exact ⟨rfl, rfl, rfl, by simp⟩
          · exact ih (i + 1) e he

lemma retryPassL_mem : ∀ (l : List Bool) (i : Nat), ∀ e ∈ retryPassL l i,
    isReloadEv e = false ∧ isCloseNewEv e = false ∧ e ≠ Ev.switchedBack ∧
    ∃ j, i ≤ j ∧ (e = .retryClosed j ∨ e = .retryFailed j) := by
  intro l
  induction l with
  | nil => intro i e he; simp [retryPassL] at he
  | cons b rest ih =>
      intro i e he
      cases b with
      | true =>
          rw [retryPassL] at he
          simp at he
          subst he
          exact ⟨rfl, rfl, by simp, i, Nat.le_refl i, Or.inl rfl⟩
      | false =>
          rw [retryPassL] at he
          simp at he
          rcases he with rfl | he
          · exact ⟨rfl, rfl, by simp, i, Nat.le_refl i, Or.inr rfl⟩
          · rcases ih (i + 1) e he with ⟨ha, hb, hc, j, hj, hd⟩
            exact ⟨ha, hb, hc, j, by omega, hd⟩

lemma retryPassL_count_zero (l : List Bool) (i : Nat) :
    (retryPassL l (i + 1)).countP isRetryStartEv = 0 := by
  apply countP_zero_of_all
  intro e he
  rcases retryPassL_mem l (i + 1) e he with ⟨_, _, _, j, hj, hd⟩
  rcases hd with rfl | rfl
  · cases j with
    | zero => omega
    | succ n => rfl
  · cases j with
    | zero => omega
    | succ n => rfl

lemma retryPassL_count_one (b : Bool) (l : List Bool) :
    (retryPassL (b :: l) 0).countP isRetryStartEv = 1 := by
  cases b with
  | true => rfl
  | false =>
      rw [retryPassL, List.countP_cons]
      have h0 : (retryPassL l (0 + 1)).countP isRetryStartEv = 0 :=
        retryPassL_count_zero l 0
      simp [isRetryStartEv, h0]

/-- C4 as amended: in the synthetic-click fallback, newly opened windows are
computed as the set difference (after-snapshot minus before-snapshot); each
new window receives exactly one close attempt (failures suppressed
per-handle) and a switch back to the original handle is performed; the
reload of the original address is attempted at most once and only when at
least one new window appeared; but the single retry of the locator pass runs
unconditionally — exactly once whether or not any new window was closed
(the counterexample shows a run with no new window that still retries). -/
theorem c4_fallback_window_diff (env : DismissEnv) (b : Bool) (bs : List Bool)
    (hch : env.currentHandleOk = true)
    (hfp : (firstPassL env.locOutcomes 0).2 = false)
    (hcu : env.currentUrlOk = true)
    (hbr : env.beforeReadOk = true)
    (hclick : env.bodyClickOk = true ∨ env.offsetClickOk = true)
    (har : env.afterReadOk = true)
    (hro : env.retryOutcomes = b :: bs) :
    (dismiss_initial_overlay env).raised = none ∧
    (∀ h ∈ dismissNewHandles env,
      Ev.closedNewWindow h ∈ (dismiss_initial_overlay env).trace ∨
      Ev.closeNewFailed h ∈ (dismiss_initial_overlay env).trace) ∧
    (dismiss_initial_overlay env).trace.countP isCloseNewEv
      = (dismissNewHandles env).length ∧
    Ev.switchedBack ∈ (dismiss_initial_overlay env).trace ∧
    (dismiss_initial_overlay env).trace.countP isReloadEv
      = (if (dismissNewHandles env).isEmpty then 0 else 1) ∧
    (dismiss_initial_overlay env).trace.countP isRetryStartEv = 1 := by
  have hrun : dismiss_initial_overlay env
      = ⟨(firstPassL env.locOutcomes 0).1
          ++ (if env.bodyClickOk then [Ev.bodyClicked]
              else [Ev.bodyClickFailed, Ev.offsetClicked])
          ++ (dismissNewHandles env).map (fun h =>
              if env.closeNewOk h then Ev.closedNewWindow h else Ev.closeNewFailed h)
          ++ [Ev.switchedBack]
          ++ (if (dismissNewHandles env).isEmpty then []
              else if env.reloadOk then [Ev.reloaded env.currentUrl]
                   else [Ev.reloadFailed])
          ++ retryPassL env.retryOutcomes 0, none⟩ := by
    rcases hclick with hbc | hoc
    · simp [dismiss_initial_overlay, hch, hfp, hcu, hbr, hbc, har, List.append_assoc]
    · by_cases hbc : env.bodyClickOk = true
      · simp [dismiss_initial_overlay, hch, hfp, hcu, hbr, hbc, har, List.append_assoc]
      · rw [Bool.not_eq_true] at hbc
        simp [dismiss_initial_overlay, hch, hfp, hcu, hbr, hbc, hoc, har,
          List.append_assoc]
  have hfp0 : ∀ p : Ev → Bool,
      (∀ e ∈ (firstPassL env.locOutcomes 0).1, p e = false) →
      (firstPassL env.locOutcomes 0).1.countP p = 0 := fun _ h => countP_zero_of_all h
  have hce0reload : (if env.bodyClickOk then [Ev.bodyClicked]
      else [Ev.bodyClickFailed, Ev.offsetClicked]).countP isReloadEv = 0 := by
    cases env.bodyClickOk <;> rfl
  have hce0retry : (if env.bodyClickOk then [Ev.bodyClicked]
      else [Ev.bodyClickFailed, Ev.offsetClicked]).countP isRetryStartEv = 0 := by
    cases env.bodyClickOk <;> rfl
  have hce0close : (if env.bodyClickOk then [Ev.bodyClicked]
      else [Ev.bodyClickFailed, Ev.offsetClicked]).countP isCloseNewEv = 0 := by
    cases env.bodyClickOk <;> rfl
  have hmapclose : ((dismissNewHandles env).map (fun h =>
      if env.closeNewOk h then Ev.closedNewWindow h else Ev.closeNewFailed h)).countP
        isCloseNewEv = (dismissNewHandles env).length := by
    rw [List.countP_map]
    rw [List.countP_eq_length]
    intro a _
    by_cases hok : env.closeNewOk a = true
    · simp [hok, isCloseNewEv]
    · rw [Bool.not_eq_true] at hok
      simp [hok, isCloseNewEv]
  have hmap0 : ∀ p : Ev → Bool, (∀ h : String, p (Ev.closedNewWindow h) = false) →
      (∀ h : String, p (Ev.closeNewFailed h) = false) →
      ((dismissNewHandles env).map (fun h =>
        if env.closeNewOk h then Ev.closedNewWindow h else Ev.closeNewFailed h)).countP
          p = 0 := by
    intro p hp1 hp2
    apply countP_zero_of_all
    intro e he
    rcases List.mem_map.mp he with ⟨a, _, rfl⟩
    by_cases hok : env.closeNewOk a = true
    · simp [hok, hp1]
    · rw [Bool.not_eq_true] at hok
      simp [hok, hp2]
  have hrel0close : (if (dismissNewHandles env).isEmpty then ([] : List Ev)
      else if env.reloadOk then [Ev.reloaded env.currentUrl]
           else [Ev.reloadFailed]).countP isCloseNewEv = 0 := by
    cases (dismissNewHandles env).isEmpty <;> cases env.reloadOk <;> rfl
  have hrel0retry : (if (dismissNewHandles env).isEmpty then ([] : List Ev)
      else if env.reloadOk then [Ev.reloaded env.currentUrl]
           else [Ev.reloadFailed]).countP isRetryStartEv = 0 := by
    cases (dismissNewHandles env).isEmpty <;> cases env.reloadOk <;> rfl
  have hrelreload : (if (dismissNewHandles env).isEmpty then ([] : List Ev)
      else if env.reloadOk then [Ev.reloaded env.currentUrl]
           else [Ev.reloadFailed]).countP isReloadEv
      = (if (dismissNewHandles env).isEmpty then 0 else 1) := by
    cases (dismissNewHandles env).isEmpty <;> cases env.reloadOk <;> rfl
  have hretry0 : ∀ p : Ev → Bool,
      (∀ j, p (Ev.retryClosed j) = false) → (∀ j, p (Ev.retryFailed j) = false) →
      (retryPassL env.retryOutcomes 0).countP p = 0 := by
    intro p hp1 hp2
    apply countP_zero_of_all
    intro e he
    rcases retryPassL_mem env.retryOutcomes 0 e he with ⟨_, _, _, j, _, hd⟩
    rcases hd with rfl | rfl
    · exact hp1 j
    · exact hp2 j
  have hsbc : List.countP isCloseNewEv [Ev.switchedBack] = 0 := rfl
  have hsbr : List.countP isReloadEv [Ev.switchedBack] = 0 := rfl
  have hsbt : List.countP isRetryStartEv [Ev.switchedBack] = 0 := rfl
  refine ⟨by rw [hrun], ?_, ?_, ?_, ?_, ?_⟩
  · intro h hh
    have hmem : (if env.closeNewOk h then Ev.closedNewWindow h else Ev.closeNewFailed h)
        ∈ (dismissNewHandles env).map (fun h =>
          if env.closeNewOk h then Ev.closedNewWindow h else Ev.closeNewFailed h) :=
      List.mem_map_of_mem _ hh
    rw [hrun]
    by_cases hok : env.closeNewOk h = true
    · left
      rw [if_pos hok] at hmem
      simp only [List.mem_append]
      tauto
    · right
      rw [Bool.not_eq_true] at hok
      rw [if_neg (by simp [hok])] at hmem
      simp only [List.mem_append]
      tauto
  · rw [hrun]
    simp only [List.countP_append]
    rw [hfp0 _ (fun e he => (firstPassL_mem _ 0 e he).2.2.1), hce0close, hmapclose,
      hrel0close, hretry0 _ (fun _ => rfl) (fun _ => rfl), hsbc]
    omega
  · rw [hrun]
    simp [List.mem_append]
  · rw [hrun]
    simp only [List.countP_append]
    rw [hfp0 _ (fun e he => (firstPassL_mem _ 0 e he).1), hce0reload,
      hmap0 _ (fun _ => rfl) (fun _ => rfl), hrelreload,
      hretry0 _ (fun _ => rfl) (fun _ => rfl), hsbr]
    cases (dismissNewHandles env).isEmpty <;> simp
  · rw [hrun]
    simp only [List.countP_append]
    rw [hfp0 _ (fun e he => (firstPassL_mem _ 0 e he).2.1), hce0retry,
      hmap0 _ (fun _ => rfl) (fun _ => rfl), hrel0retry, hro,
      retryPassL_count_one, hsbt]

/-- A dismisser run whose synthetic click opens one popup window `w1`. -/
def dismissEnvPopup : DismissEnv :=
  { currentHandleOk := true,
    locOutcomes := [.timedOut, .timedOut, .timedOut, .timedOut, .timedOut],
    currentUrlOk := true, currentUrl := "home", beforeReadOk := true,
    beforeHandles := ["m"], bodyClickOk := true, offsetClickOk := true,
    afterReadOk := true, afterHandles := ["m", "w1"], closeNewOk := fun _ => true,
    reloadOk := true, retryOutcomes := [false, false, false, false, false] }

/-- C4 witness: the amended statement at a run where exactly one new window
appeared. -/
theorem c4_witness :
    (dismiss_initial_overlay dismissEnvPopup).raised = none ∧
    (∀ h ∈ dismissNewHandles dismissEnvPopup,
      Ev.closedNewWindow h ∈ (dismiss_initial_overlay dismissEnvPopup).trace ∨
      Ev.closeNewFailed h ∈ (dismiss_initial_overlay dismissEnvPopup).trace) ∧
    (dismiss_initial_overlay dismissEnvPopup).trace.countP isCloseNewEv
      = (dismissNewHandles dismissEnvPopup).length ∧
    Ev.switchedBack ∈ (dismiss_initial_overlay dismissEnvPopup).trace ∧
    (dismiss_initial_overlay dismissEnvPopup).trace.countP isReloadEv
      = (if (dismissNewHandles dismissEnvPopup).isEmpty then 0 else 1) ∧
    (dismiss_initial_overlay dismissEnvPopup).trace.countP isRetryStartEv = 1 :=
  c4_fallback_window_diff dismissEnvPopup false [false, false, false, false]
    rfl rfl rfl rfl (Or.inl rfl) rfl rfl
